import Mathlib

/-!
# Verification of prog1lib `base.h` (Programming I Library)

Shallow embedding of the contract-checking macros, the quantifier helper
macros, the macro substitution layer (`free` / `exit` redefinition), and a
spec-modelled tracked allocator and container family (whose C implementation
files are not part of the visible sources; only `base.h` declares them).
-/

namespace Prog1Lib

/-! ## Quantifier helper macros (`forall`, `exists`, `countif`)

`base.h` lines 455-497.  Each macro runs a C `for` loop
`for (init; has_more_steps; do_step)` over some iteration state and reduces
`condition` across the visited steps.  We embed the loop state as a type `σ`,
the loop header as `hasMore : σ → Bool` and `step : σ → σ`, and the loop body
condition as `cond : σ → Bool`.  A C loop need not terminate, so the loop is
run with explicit fuel; all theorems hold for every fuel amount. -/

section Quantifiers

variable {σ : Type}

/-- The sequence of iteration states visited by `for (init; has_more_steps;
do_step)`: starting from `s`, while `hasMore` holds, record the state and
advance with `step`, for at most `fuel` steps. -/
def iterStates (hasMore : σ → Bool) (step : σ → σ) : Nat → σ → List σ
  | 0, _ => []
  | fuel + 1, s => if hasMore s then s :: iterStates hasMore step fuel (step s) else []

/-- `forall(init, has_more_steps, do_step, condition)` from `base.h` line 455:
`result = true; for (...) { if (!(condition)) { result = false; break; } }`. -/
def forallLoop (hasMore : σ → Bool) (step : σ → σ) (cond : σ → Bool) : Nat → σ → Bool
  | 0, _ => true
  | fuel + 1, s =>
    if hasMore s then
      if !(cond s) then false
      else forallLoop hasMore step cond fuel (step s)
    else true

/-- `exists(init, has_more_steps, do_step, condition)` from `base.h` line 474:
`result = false; for (...) { if (condition) { result = true; break; } }`. -/
def existsLoop (hasMore : σ → Bool) (step : σ → σ) (cond : σ → Bool) : Nat → σ → Bool
  | 0, _ => false
  | fuel + 1, s =>
    if hasMore s then
      if cond s then true
      else existsLoop hasMore step cond fuel (step s)
    else false

/-- `countif(init, has_more_steps, do_step, condition)` from `base.h` line 493:
`result = 0; for (...) { if (condition) { result++; } }`. -/
def countifLoop (hasMore : σ → Bool) (step : σ → σ) (cond : σ → Bool) : Nat → σ → Nat
  | 0, _ => 0
  | fuel + 1, s =>
    if hasMore s then
      (if cond s then 1 else 0) + countifLoop hasMore step cond fuel (step s)
    else 0

end Quantifiers

/-! ## The contract-checking macros

`base.h` lines 183-439.  Each enabled macro is
`if (!(condition)) { fprintf(stderr, <format>, <args>); exit(EXIT_FAILURE); }`.
We embed `fprintf` by an interpreter `formatC` for the `%s`/`%d` directives
actually used by the macros, applied to the format strings copied from the
source.  The observable behaviour of one macro invocation is a `CheckResult`:
either no effect, or termination with the text written to `stderr` and the
exit status. -/

/-- An argument consumed by a `%s` (string) or `%d` (int) printf directive. -/
inductive CArg where
  | s : String → CArg
  | d : Int → CArg

/-- Interpreter for the C format strings used in `base.h`: `%s` consumes a
string argument, `%d` consumes an int argument (rendered as by printf), every
other character is copied verbatim. -/
def formatC : List Char → List CArg → List Char
  | [], _ => []
  | '%' :: 's' :: cs, (CArg.s str) :: args => str.data ++ formatC cs args
  | '%' :: 'd' :: cs, (CArg.d n) :: args => (Int.repr n).data ++ formatC cs args
  | c :: cs, args => c :: formatC cs args

/-- `EXIT_FAILURE` from `<stdlib.h>`, the status passed to `exit` by every
failed check. -/
def EXIT_FAILURE : Int := 1

/-- Observable outcome of one checked-assertion invocation: either no effect,
or process termination carrying the diagnostic text written to `stderr` and
the exit status. -/
inductive CheckResult where
  | ok : CheckResult
  | terminated : String → Int → CheckResult
deriving DecidableEq

/-- Format string of `assert` (`base.h` line 206). -/
def assertFmt : String := "%s, line %d: assertion \"%s\" (%s) violated\n"

/-- Format string of the first `fprintf` of `assert_x` (`base.h` line 234);
the macro then prints the formatted varargs detail and a newline. -/
def assertXFmt : String := "%s, line %d: assertion \"%s\" violated: "

/-- Format string of `require` (`base.h` line 267). -/
def requireFmt : String := "%s, line %d: %s\x27s precondition \"%s\" (%s) violated\n"

/-- Format string of the first `fprintf` of `require_x` (`base.h` line 296). -/
def requireXFmt : String := "%s, line %d: %s\x27s precondition \"%s\" violated: "

/-- Format string of `ensure` (`base.h` line 383). -/
def ensureFmt : String := "%s, line %d: %s\x27s postcondition \"%s\" (%s) violated\n"

/-- Format string of the first `fprintf` of `ensure_x` (`base.h` line 415). -/
def ensureXFmt : String := "%s, line %d: %s\x27s postcondition \"%s\" violated: "

/-- Format string of `require_not_null` (`base.h` line 350): the stringized
argument `#argument` is pasted into the format string between `(` and `)`. -/
def requireNotNullFmt (argumentText : String) : String :=
  "%s, line %d: %s\x27s precondition \"not null\" (" ++ argumentText ++ ") violated\n"

/-- Diagnostic written by a failed `assert(description, condition)`:
`fprintf(stderr, assertFmt, __FILE__, __LINE__, description, #condition)`. -/
def assertDiagnostic (file : String) (line : Int) (description conditionText : String) : String :=
  ⟨formatC assertFmt.data [CArg.s file, CArg.d line, CArg.s description, CArg.s conditionText]⟩

/-- Diagnostic written by a failed `assert_x(description, condition, ...)`:
three consecutive `fprintf(stderr, ...)` calls — the location/description
header, the formatted varargs detail, and a newline. -/
def assertXDiagnostic (file : String) (line : Int) (description detail : String) : String :=
  ⟨formatC assertXFmt.data [CArg.s file, CArg.d line, CArg.s description]⟩ ++ detail ++ "\n"

/-- Diagnostic written by a failed `require(description, condition)`:
`fprintf(stderr, requireFmt, __FILE__, __LINE__, __func__, description, #condition)`. -/
def requireDiagnostic (file : String) (line : Int) (func description conditionText : String) :
    String :=
  ⟨formatC requireFmt.data
    [CArg.s file, CArg.d line, CArg.s func, CArg.s description, CArg.s conditionText]⟩

/-- Diagnostic written by a failed `require_x(description, condition, ...)`. -/
def requireXDiagnostic (file : String) (line : Int) (func description detail : String) : String :=
  ⟨formatC requireXFmt.data [CArg.s file, CArg.d line, CArg.s func, CArg.s description]⟩ ++
    detail ++ "\n"

/-- Diagnostic written by a failed `ensure(description, condition)`. -/
def ensureDiagnostic (file : String) (line : Int) (func description conditionText : String) :
    String :=
  ⟨formatC ensureFmt.data
    [CArg.s file, CArg.d line, CArg.s func, CArg.s description, CArg.s conditionText]⟩

/-- Diagnostic written by a failed `ensure_x(description, condition, ...)`. -/
def ensureXDiagnostic (file : String) (line : Int) (func description detail : String) : String :=
  ⟨formatC ensureXFmt.data [CArg.s file, CArg.d line, CArg.s func, CArg.s description]⟩ ++
    detail ++ "\n"

/-- Diagnostic written by a failed `require_not_null(argument)`:
`fprintf(stderr, "%s, line %d: %s\x27s precondition \"not null\" (" #argument ")
violated\n", __FILE__, __LINE__, __func__)`. -/
def requireNotNullDiagnostic (file : String) (line : Int) (func argumentText : String) : String :=
  ⟨formatC (requireNotNullFmt argumentText).data [CArg.s file, CArg.d line, CArg.s func]⟩

/-- `assert(description, condition)`, `base.h` lines 204-208 (checking
enabled, i.e. `NO_ASSERT` not defined). -/
def assertCheck (file : String) (line : Int) (description conditionText : String)
    (condition : Bool) : CheckResult :=
  if !condition then
    CheckResult.terminated (assertDiagnostic file line description conditionText) EXIT_FAILURE
  else CheckResult.ok

/-- `assert_x(description, condition, ...)`, `base.h` lines 232-238; `detail`
is the output of `fprintf(stderr, __VA_ARGS__)`. -/
def assertXCheck (file : String) (line : Int) (description detail : String)
    (condition : Bool) : CheckResult :=
  if !condition then
    CheckResult.terminated (assertXDiagnostic file line description detail) EXIT_FAILURE
  else CheckResult.ok

/-- `require(description, condition)`, `base.h` lines 265-269. -/
def requireCheck (file : String) (line : Int) (func description conditionText : String)
    (condition : Bool) : CheckResult :=
  if !condition then
    CheckResult.terminated (requireDiagnostic file line func description conditionText)
      EXIT_FAILURE
  else CheckResult.ok

/-- `require_x(description, condition, ...)`, `base.h` lines 294-300. -/
def requireXCheck (file : String) (line : Int) (func description detail : String)
    (condition : Bool) : CheckResult :=
  if !condition then
    CheckResult.terminated (requireXDiagnostic file line func description detail) EXIT_FAILURE
  else CheckResult.ok

/-- `ensure(description, condition)`, `base.h` lines 381-385. -/
def ensureCheck (file : String) (line : Int) (func description conditionText : String)
    (condition : Bool) : CheckResult :=
  if !condition then
    CheckResult.terminated (ensureDiagnostic file line func description conditionText)
      EXIT_FAILURE
  else CheckResult.ok

/-- `ensure_x(description, condition, ...)`, `base.h` lines 413-419. -/
def ensureXCheck (file : String) (line : Int) (func description detail : String)
    (condition : Bool) : CheckResult :=
  if !condition then
    CheckResult.terminated (ensureXDiagnostic file line func description detail) EXIT_FAILURE
  else CheckResult.ok

/-- `require_not_null(argument)`, `base.h` lines 348-353.  Addresses are
modelled as natural numbers with `NULL = 0`. -/
def NULL : Nat := 0

def requireNotNullCheck (file : String) (line : Int) (func argumentText : String)
    (argument : Nat) : CheckResult :=
  if argument = NULL then
    CheckResult.terminated (requireNotNullDiagnostic file line func argumentText) EXIT_FAILURE
  else CheckResult.ok

/-- A string contains no newline character. -/
abbrev newlineFree (s : String) : Prop := s.data.count '\n' = 0

/-- A string is exactly one output line: a newline-free body followed by a
single terminating newline. -/
def oneLine (msg : String) : Prop :=
  ∃ body : List Char, msg.data = body ++ ['\n'] ∧ body.count '\n' = 0

/-! ## The tracked allocator

`base.h` only declares `base_malloc` (line 543) and `base_free` (line 604);
their bodies live in a `.c` file that is not among the visible sources. -/

/-- Modelled from the spec: the Live-Block Record of the Allocation Ledger
(spec section 3) kept by `base_malloc`, whose implementation is not among the
visible sources — one record per currently-allocated block, holding byte size
and the originating source file, function and line. -/
structure LiveBlockRecord where
  size : Nat
  file : String
  func : String
  line : Int
deriving DecidableEq

/-- Modelled from the spec: the process-wide allocator state — the Allocation
Ledger mapping block addresses to Live-Block Records, the platform
allocator\x27s address source (fresh addresses, so no two live blocks share an
address), and the audit history of every address handed out by `allocate` and
every address actually deregistered by `release`. -/
structure AllocState where
  ledger : List (Nat × LiveBlockRecord)
  nextAddr : Nat
  allocated : List Nat
  released : List Nat

/-- The state before any tracked allocation: empty ledger, empty history. -/
def initState : AllocState :=
  { ledger := [], nextAddr := 0, allocated := [], released := [] }

/-- Ledger lookup by block address (first record with the given key). -/
def lookupBlock (addr : Nat) : List (Nat × LiveBlockRecord) → Option LiveBlockRecord
  | [] => none
  | e :: rest => if e.1 = addr then some e.2 else lookupBlock addr rest

/-- Removal of the record(s) keyed by a block address. -/
def removeBlock (addr : Nat) : List (Nat × LiveBlockRecord) → List (Nat × LiveBlockRecord)
  | [] => []
  | e :: rest => if e.1 = addr then removeBlock addr rest else e :: removeBlock addr rest

/-- Modelled from the spec: `base_malloc(file, function, line, size)` /
`xmalloc(size)` — returns a fresh non-null address (size 0 included), inserts
a Live-Block Record for it keyed by that address, and records the call-site
provenance.  (Platform allocation failure terminates the process and is not a
return path, so the model only has the success path.) -/
def allocate (s : AllocState) (file func : String) (line : Int) (size : Nat) :
    Nat × AllocState :=
  let addr := s.nextAddr + 1
  (addr,
   { ledger := (addr, ⟨size, file, func, line⟩) :: s.ledger
     nextAddr := addr + size
     allocated := addr :: s.allocated
     released := s.released })

/-- Modelled from the spec: `base_free(p)` / `free(p)` — a null pointer is a
no-op; a pointer with a matching ledger record is deregistered (its record
removed) and returned to the platform; a pointer with no matching record
deregisters nothing. -/
def release (s : AllocState) (p : Nat) : AllocState :=
  if p = NULL then s
  else if (lookupBlock p s.ledger).isSome then
    { s with
        ledger := removeBlock p s.ledger
        released := p :: s.released }
  else s

/-- One client action against the tracked allocator. -/
inductive AllocOp where
  | alloc : String → String → Int → Nat → AllocOp
  | dealloc : Nat → AllocOp

/-- Run a sequence of client actions from a given allocator state. -/
def runOps : List AllocOp → AllocState → AllocState
  | [], s => s
  | AllocOp.alloc file func line size :: ops, s =>
      runOps ops (allocate s file func line size).2
  | AllocOp.dealloc p :: ops, s => runOps ops (release s p)

/-- The Allocation Ledger invariant of spec section 3: a record exists in the
ledger if and only if the corresponding block has been allocated by the
tracked allocator and not yet released. -/
def ledgerMatchesHistory (s : AllocState) : Prop :=
  ∀ a : Nat, (lookupBlock a s.ledger).isSome = true ↔ (a ∈ s.allocated ∧ a ∉ s.released)

/-- Auxiliary allocator invariant: every address ever allocated is non-null
and bounded by the address source, and only allocated addresses have been
released. -/
def allocHygiene (s : AllocState) : Prop :=
  (∀ a ∈ s.allocated, 0 < a ∧ a ≤ s.nextAddr) ∧ (∀ a ∈ s.released, a ∈ s.allocated)

/-- Modelled from the spec: the report produced by `base_exit` (declared at
`base.h` line 617, body not among the visible sources): it records the
requested exit status and, when memory checking is enabled, reports every
still-registered block of the ledger as a leak before the real exit. -/
structure ExitReport where
  status : Int
  leaks : List (Nat × LiveBlockRecord)

def baseExit (memoryCheckEnabled : Bool) (s : AllocState) (status : Int) : ExitReport :=
  { status := status
    leaks := if memoryCheckEnabled then s.ledger else [] }

/-! ## The generic container family

The container headers (`array.h`, `int_array.h`, ..., `list.h`, ...) are
included by `base.h` lines 901-912 but are not among the visible sources, so
the bounds-checked access discipline is modelled from spec section 4.3. -/

/-- Modelled from the spec: a container of the Generic Container Family — a
zero-indexed homogeneous sequence exposing its length (spec section 3). -/
structure Container (α : Type) where
  elems : List α

/-- The container\x27s length, as the C `int` the library exposes. -/
def clength {α : Type} (c : Container α) : Int := c.elems.length

/-- Outcome of a bounds-checked container access: either the accessed value,
or a precondition failure that terminates the process with the given exit
status instead of returning data. -/
inductive AccessResult (α : Type) where
  | ok : α → AccessResult α
  | preconditionFailure : Int → AccessResult α
deriving DecidableEq

/-- Modelled from the spec: `get(container, index)` — returns the element at
`index`, failing a precondition check (process termination) if `index` is
outside `[0, length)` (spec section 4.3). -/
def cget {α : Type} (c : Container α) (index : Int) : AccessResult α :=
  if h : 0 ≤ index ∧ index < clength c then
    AccessResult.ok (c.elems.get ⟨index.toNat, by
      rcases h with ⟨h1, h2⟩
      simp only [clength] at h2
      omega⟩)
  else AccessResult.preconditionFailure EXIT_FAILURE

/-- Modelled from the spec: `set(container, index, value)` — replaces the
element at `index`, with the same bounds contract as `get`. -/
def cset {α : Type} (c : Container α) (index : Int) (value : α) :
    AccessResult (Container α) :=
  if 0 ≤ index ∧ index < clength c then
    AccessResult.ok ⟨c.elems.set index.toNat value⟩
  else AccessResult.preconditionFailure EXIT_FAILURE

/-! ## Preprocessor substitution of `free` and `exit`

`base.h` line 610 is `#define free base_free` and line 623 is
`#define exit base_exit`.  Both are object-like: after the header is
included, every occurrence of the identifier token `free` or `exit` in client
code (and in macro bodies expanded at the client\x27s use site) is replaced.
Neither replacement is itself a defined identifier, so substitution is a
single pass over the tokens. -/

/-- The object-like `#define`s of `base.h` lines 610 and 623. -/
def cppDefines : List (String × String) := [("free", "base_free"), ("exit", "base_exit")]

/-- Substitution of one identifier token. -/
def expandToken (t : String) : String := ((cppDefines.lookup t).getD t)

/-- Substitution over a token sequence (client code after inclusion). -/
def expandTokens (ts : List String) : List String := ts.map expandToken

/-- The termination call `exit(EXIT_FAILURE)` occurring in the bodies of the
`assert` / `require` / `ensure` macros (`base.h` lines 207, 268, 384), as the
token sequence the preprocessor rescans at the client\x27s use site. -/
def assertExitCall : List String := ["exit", "(", "EXIT_FAILURE", ")"]

/-! ## Theorems -/

/-! ### The quantifier loops against list semantics -/

theorem forallLoop_eq_all {σ : Type} (hasMore : σ → Bool) (step : σ → σ) (cond : σ → Bool) :
    ∀ (fuel : Nat) (s : σ),
      forallLoop hasMore step cond fuel s = (iterStates hasMore step fuel s).all cond := by
  intro fuel
  induction fuel with
  | zero => intro s; rfl
  | succ n ih =>
    intro s
    simp only [forallLoop, iterStates]
    by_cases h : hasMore s = true
    · simp only [h, if_true, List.all_cons]
      by_cases hc : cond s = true
      · simp [hc, ih]
      · simp [Bool.not_eq_true] at hc
        simp [hc]
    · simp [Bool.not_eq_true] at h
      simp [h]

theorem existsLoop_eq_any {σ : Type} (hasMore : σ → Bool) (step : σ → σ) (cond : σ → Bool) :
    ∀ (fuel : Nat) (s : σ),
      existsLoop hasMore step cond fuel s = (iterStates hasMore step fuel s).any cond := by
  intro fuel
  induction fuel with
  | zero => intro s; rfl
  | succ n ih =>
    intro s
    simp only [existsLoop, iterStates]
    by_cases h : hasMore s = true
    · simp only [h, if_true, List.any_cons]
      by_cases hc : cond s = true
      · simp [hc]
      · simp [Bool.not_eq_true] at hc
        simp [hc, ih]
    · simp [Bool.not_eq_true] at h
      simp [h]

theorem countifLoop_eq_count {σ : Type} (hasMore : σ → Bool) (step : σ → σ) (cond : σ → Bool) :
    ∀ (fuel : Nat) (s : σ),
      countifLoop hasMore step cond fuel s =
        ((iterStates hasMore step fuel s).filter cond).length := by
  intro fuel
  induction fuel with
  | zero => intro s; rfl
  | succ n ih =>
    intro s
    simp only [countifLoop, iterStates]
    by_cases h : hasMore s = true
    · simp only [h, if_true]
      by_cases hc : cond s = true
      · simp [List.filter, hc, ih, Nat.add_comm]
      · simp [Bool.not_eq_true] at hc
        simp [List.filter, hc, ih]
    · simp [Bool.not_eq_true] at h
      simp [h]

/-! ### Format-string computation -/

theorem formatC_nil_args (cs : List Char) : formatC cs [] = cs := by
  induction cs with
  | nil => rfl
  | cons c cs ih =>
    rw [formatC.eq_def]
    split <;> simp_all

/-! ### Closed forms of the diagnostics -/

theorem assertDiagnostic_eq (f : String) (l : Int) (d c : String) :
    assertDiagnostic f l d c =
      f ++ ", line " ++ Int.repr l ++ ": assertion \"" ++ d ++ "\" (" ++ c ++ ") violated\n" := by
  apply String.ext
  show formatC assertFmt.data [CArg.s f, CArg.d l, CArg.s d, CArg.s c] = _
  simp [formatC, assertFmt, String.data_append]

theorem assertXDiagnostic_eq (f : String) (l : Int) (d detail : String) :
    assertXDiagnostic f l d detail =
      f ++ ", line " ++ Int.repr l ++ ": assertion \"" ++ d ++ "\" violated: " ++
        detail ++ "\n" := by
  apply String.ext
  show (String.mk (formatC assertXFmt.data [CArg.s f, CArg.d l, CArg.s d]) ++
    detail ++ "\n").data = _
  simp [formatC, assertXFmt, String.data_append]

theorem requireDiagnostic_eq (f : String) (l : Int) (fn d c : String) :
    requireDiagnostic f l fn d c =
      f ++ ", line " ++ Int.repr l ++ ": " ++ fn ++ "\x27s precondition \"" ++ d ++ "\" (" ++
        c ++ ") violated\n" := by
  apply String.ext
  show formatC requireFmt.data [CArg.s f, CArg.d l, CArg.s fn, CArg.s d, CArg.s c] = _
  simp [formatC, requireFmt, String.data_append]

theorem requireXDiagnostic_eq (f : String) (l : Int) (fn d detail : String) :
    requireXDiagnostic f l fn d detail =
      f ++ ", line " ++ Int.repr l ++ ": " ++ fn ++ "\x27s precondition \"" ++ d ++
        "\" violated: " ++ detail ++ "\n" := by
  apply String.ext
  show (String.mk (formatC requireXFmt.data [CArg.s f, CArg.d l, CArg.s fn, CArg.s d]) ++
    detail ++ "\n").data = _
  simp [formatC, requireXFmt, String.data_append]

theorem ensureDiagnostic_eq (f : String) (l : Int) (fn d c : String) :
    ensureDiagnostic f l fn d c =
      f ++ ", line " ++ Int.repr l ++ ": " ++ fn ++ "\x27s postcondition \"" ++ d ++ "\" (" ++
        c ++ ") violated\n" := by
  apply String.ext
  show formatC ensureFmt.data [CArg.s f, CArg.d l, CArg.s fn, CArg.s d, CArg.s c] = _
  simp [formatC, ensureFmt, String.data_append]

theorem ensureXDiagnostic_eq (f : String) (l : Int) (fn d detail : String) :
    ensureXDiagnostic f l fn d detail =
      f ++ ", line " ++ Int.repr l ++ ": " ++ fn ++ "\x27s postcondition \"" ++ d ++
        "\" violated: " ++ detail ++ "\n" := by
  apply String.ext
  show (String.mk (formatC ensureXFmt.data [CArg.s f, CArg.d l, CArg.s fn, CArg.s d]) ++
    detail ++ "\n").data = _
  simp [formatC, ensureXFmt, String.data_append]

theorem requireNotNullDiagnostic_eq (f : String) (l : Int) (fn t : String) :
    requireNotNullDiagnostic f l fn t =
      f ++ ", line " ++ Int.repr l ++ ": " ++ fn ++ "\x27s precondition \"not null\" (" ++
        t ++ ") violated\n" := by
  apply String.ext
  show formatC (requireNotNullFmt t).data [CArg.s f, CArg.d l, CArg.s fn] = _
  simp [formatC, requireNotNullFmt, String.data_append, formatC_nil_args]

/-- Claim C4: every failed check prints exactly the specified text — plain
assertions print `<file>, line <line>: assertion "<description>"
(<condition-text>) violated`, the precondition/postcondition variants put
`<function>\x27s precondition` / `<function>\x27s postcondition` in place of
`assertion` after the line number, and the formatted `_x` variants replace the
parenthesized condition text with ` violated: <formatted detail>`. -/
theorem diagnostic_format_exact :
    ∀ (file func : String) (line : Int) (description conditionText detail : String),
      assertDiagnostic file line description conditionText =
          file ++ ", line " ++ Int.repr line ++ ": assertion \"" ++ description ++ "\" (" ++
            conditionText ++ ") violated\n" ∧
      requireDiagnostic file line func description conditionText =
          file ++ ", line " ++ Int.repr line ++ ": " ++ func ++ "\x27s precondition \"" ++
            description ++ "\" (" ++ conditionText ++ ") violated\n" ∧
      ensureDiagnostic file line func description conditionText =
          file ++ ", line " ++ Int.repr line ++ ": " ++ func ++ "\x27s postcondition \"" ++
            description ++ "\" (" ++ conditionText ++ ") violated\n" ∧
      assertXDiagnostic file line description detail =
          file ++ ", line " ++ Int.repr line ++ ": assertion \"" ++ description ++
            "\" violated: " ++ detail ++ "\n" ∧
      requireXDiagnostic file line func description detail =
          file ++ ", line " ++ Int.repr line ++ ": " ++ func ++ "\x27s precondition \"" ++
            description ++ "\" violated: " ++ detail ++ "\n" ∧
      ensureXDiagnostic file line func description detail =
          file ++ ", line " ++ Int.repr line ++ ": " ++ func ++ "\x27s postcondition \"" ++
            description ++ "\" violated: " ++ detail ++ "\n" :=
  fun file func line description conditionText detail =>
    ⟨assertDiagnostic_eq file line description conditionText,
     requireDiagnostic_eq file line func description conditionText,
     ensureDiagnostic_eq file line func description conditionText,
     assertXDiagnostic_eq file line description detail,
     requireXDiagnostic_eq file line func description detail,
     ensureXDiagnostic_eq file line func description detail⟩

/-- Claim C6: `require_not_null(argument)` terminates the process with a
diagnostic naming the enclosing function\x27s precondition "not null" exactly
when the argument is NULL, and has no observable effect otherwise. -/
theorem require_not_null_behavior :
    ∀ (file func : String) (line : Int) (argumentText : String) (argument : Nat),
      requireNotNullCheck file line func argumentText argument =
        (if argument = NULL then
          CheckResult.terminated (file ++ ", line " ++ Int.repr line ++ ": " ++ func ++
            "\x27s precondition \"not null\" (" ++ argumentText ++ ") violated\n") EXIT_FAILURE
        else CheckResult.ok) := by
  intro file func line argumentText argument
  by_cases h : argument = NULL
  · simp [requireNotNullCheck, h, requireNotNullDiagnostic_eq]
  · simp [requireNotNullCheck, h]

/-! ### One-line shape of the diagnostics -/

theorem oneLine_assertDiagnostic (f : String) (l : Int) (d c : String)
    (hf : newlineFree f) (hl : newlineFree (Int.repr l)) (hd : newlineFree d)
    (hc : newlineFree c) : oneLine (assertDiagnostic f l d c) := by
  rw [assertDiagnostic_eq]
  refine ⟨(f ++ ", line " ++ Int.repr l ++ ": assertion \"" ++ d ++ "\" (" ++ c ++
    ") violated").data, ?_, ?_⟩
  · have h : (") violated\n" : String).data = (") violated" : String).data ++ ['\n'] := by decide
    simp [String.data_append, h]
  · simp [newlineFree] at hf hl hd hc
    simp [String.data_append, List.count_append, hf, hl, hd, hc]

theorem oneLine_assertXDiagnostic (f : String) (l : Int) (d detail : String)
    (hf : newlineFree f) (hl : newlineFree (Int.repr l)) (hd : newlineFree d)
    (hdetail : newlineFree detail) : oneLine (assertXDiagnostic f l d detail) := by
  rw [assertXDiagnostic_eq]
  refine ⟨(f ++ ", line " ++ Int.repr l ++ ": assertion \"" ++ d ++ "\" violated: " ++
    detail).data, ?_, ?_⟩
  · simp [String.data_append]
  · simp [newlineFree] at hf hl hd hdetail
    simp [String.data_append, List.count_append, hf, hl, hd, hdetail]

theorem oneLine_requireDiagnostic (f : String) (l : Int) (fn d c : String)
    (hf : newlineFree f) (hl : newlineFree (Int.repr l)) (hfn : newlineFree fn)
    (hd : newlineFree d) (hc : newlineFree c) : oneLine (requireDiagnostic f l fn d c) := by
  rw [requireDiagnostic_eq]
  refine ⟨(f ++ ", line " ++ Int.repr l ++ ": " ++ fn ++ "\x27s precondition \"" ++ d ++
    "\" (" ++ c ++ ") violated").data, ?_, ?_⟩
  · have h : (") violated\n" : String).data = (") violated" : String).data ++ ['\n'] := by decide
    simp [String.data_append, h]
  · simp [newlineFree] at hf hl hfn hd hc
    simp [String.data_append, List.count_append, hf, hl, hfn, hd, hc]

theorem oneLine_requireXDiagnostic (f : String) (l : Int) (fn d detail : String)
    (hf : newlineFree f) (hl : newlineFree (Int.repr l)) (hfn : newlineFree fn)
    (hd : newlineFree d) (hdetail : newlineFree detail) :
    oneLine (requireXDiagnostic f l fn d detail) := by
  rw [requireXDiagnostic_eq]
  refine ⟨(f ++ ", line " ++ Int.repr l ++ ": " ++ fn ++ "\x27s precondition \"" ++ d ++
    "\" violated: " ++ detail).data, ?_, ?_⟩
  · simp [String.data_append]
  · simp [newlineFree] at hf hl hfn hd hdetail
    simp [String.data_append, List.count_append, hf, hl, hfn, hd, hdetail]

theorem oneLine_ensureDiagnostic (f : String) (l : Int) (fn d c : String)
    (hf : newlineFree f) (hl : newlineFree (Int.repr l)) (hfn : newlineFree fn)
    (hd : newlineFree d) (hc : newlineFree c) : oneLine (ensureDiagnostic f l fn d c) := by
  rw [ensureDiagnostic_eq]
  refine ⟨(f ++ ", line " ++ Int.repr l ++ ": " ++ fn ++ "\x27s postcondition \"" ++ d ++
    "\" (" ++ c ++ ") violated").data, ?_, ?_⟩
  · have h : (") violated\n" : String).data = (") violated" : String).data ++ ['\n'] := by decide
    simp [String.data_append, h]
  · simp [newlineFree] at hf hl hfn hd hc
    simp [String.data_append, List.count_append, hf, hl, hfn, hd, hc]

theorem oneLine_ensureXDiagnostic (f : String) (l : Int) (fn d detail : String)
    (hf : newlineFree f) (hl : newlineFree (Int.repr l)) (hfn : newlineFree fn)
    (hd : newlineFree d) (hdetail : newlineFree detail) :
    oneLine (ensureXDiagnostic f l fn d detail) := by
  rw [ensureXDiagnostic_eq]
  refine ⟨(f ++ ", line " ++ Int.repr l ++ ": " ++ fn ++ "\x27s postcondition \"" ++ d ++
    "\" violated: " ++ detail).data, ?_, ?_⟩
  · simp [String.data_append]
  · simp [newlineFree] at hf hl hfn hd hdetail
    simp [String.data_append, List.count_append, hf, hl, hfn, hd, hdetail]

/-- Claim C3: with checking enabled, every checked assertion
(`assert`, `require`, `ensure` and their `_x` variants) is a no-op on a true
condition; on a false condition it terminates the process with status
`EXIT_FAILURE` (a failure status, nonzero) after writing the diagnostic —
source location, enclosing function name for pre/postconditions, description,
and condition text or formatted detail — and that diagnostic is exactly one
line of output whenever its components contain no newline character. -/
theorem checked_assertion_behavior :
    ∀ (file func : String) (line : Int) (description conditionText detail : String),
      (assertCheck file line description conditionText true = CheckResult.ok ∧
       assertXCheck file line description detail true = CheckResult.ok ∧
       requireCheck file line func description conditionText true = CheckResult.ok ∧
       requireXCheck file line func description detail true = CheckResult.ok ∧
       ensureCheck file line func description conditionText true = CheckResult.ok ∧
       ensureXCheck file line func description detail true = CheckResult.ok) ∧
      (assertCheck file line description conditionText false =
         CheckResult.terminated (file ++ ", line " ++ Int.repr line ++ ": assertion \"" ++
           description ++ "\" (" ++ conditionText ++ ") violated\n") EXIT_FAILURE ∧
       assertXCheck file line description detail false =
         CheckResult.terminated (file ++ ", line " ++ Int.repr line ++ ": assertion \"" ++
           description ++ "\" violated: " ++ detail ++ "\n") EXIT_FAILURE ∧
       requireCheck file line func description conditionText false =
         CheckResult.terminated (file ++ ", line " ++ Int.repr line ++ ": " ++ func ++
           "\x27s precondition \"" ++ description ++ "\" (" ++ conditionText ++
           ") violated\n") EXIT_FAILURE ∧
       requireXCheck file line func description detail false =
         CheckResult.terminated (file ++ ", line " ++ Int.repr line ++ ": " ++ func ++
           "\x27s precondition \"" ++ description ++ "\" violated: " ++ detail ++ "\n")
           EXIT_FAILURE ∧
       ensureCheck file line func description conditionText false =
         CheckResult.terminated (file ++ ", line " ++ Int.repr line ++ ": " ++ func ++
           "\x27s postcondition \"" ++ description ++ "\" (" ++ conditionText ++
           ") violated\n") EXIT_FAILURE ∧
       ensureXCheck file line func description detail false =
         CheckResult.terminated (file ++ ", line " ++ Int.repr line ++ ": " ++ func ++
           "\x27s postcondition \"" ++ description ++ "\" violated: " ++ detail ++ "\n")
           EXIT_FAILURE ∧
       EXIT_FAILURE ≠ 0) ∧
      (newlineFree file → newlineFree (Int.repr line) → newlineFree func →
       newlineFree description → newlineFree conditionText → newlineFree detail →
        oneLine (assertDiagnostic file line description conditionText) ∧
        oneLine (assertXDiagnostic file line description detail) ∧
        oneLine (requireDiagnostic file line func description conditionText) ∧
        oneLine (requireXDiagnostic file line func description detail) ∧
        oneLine (ensureDiagnostic file line func description conditionText) ∧
        oneLine (ensureXDiagnostic file line func description detail)) := by
  intro file func line description conditionText detail
  refine ⟨⟨rfl, rfl, rfl, rfl, rfl, rfl⟩, ⟨?_, ?_, ?_, ?_, ?_, ?_, by decide⟩, ?_⟩
  · simp [assertCheck, assertDiagnostic_eq]
  · simp [assertXCheck, assertXDiagnostic_eq]
  · simp [requireCheck, requireDiagnostic_eq]
  · simp [requireXCheck, requireXDiagnostic_eq]
  · simp [ensureCheck, ensureDiagnostic_eq]
  · simp [ensureXCheck, ensureXDiagnostic_eq]
  · intro hf hl hfn hd hc hdetail
    exact ⟨oneLine_assertDiagnostic file line description conditionText hf hl hd hc,
      oneLine_assertXDiagnostic file line description detail hf hl hd hdetail,
      oneLine_requireDiagnostic file line func description conditionText hf hl hfn hd hc,
      oneLine_requireXDiagnostic file line func description detail hf hl hfn hd hdetail,
      oneLine_ensureDiagnostic file line func description conditionText hf hl hfn hd hc,
      oneLine_ensureXDiagnostic file line func description detail hf hl hfn hd hdetail⟩

/-- Witness for claim C3 at the concrete call site of the `base.h`
documentation example: `myfile.c`, line 18, `assert("not too large", x < 3)`
inside `myfunction`. -/
theorem checked_assertion_behavior_witness :
    oneLine (assertDiagnostic "myfile.c" 18 "not too large" "x < 3") ∧
    oneLine (assertXDiagnostic "myfile.c" 18 "not too large" "x == 3") ∧
    oneLine (requireDiagnostic "myfile.c" 18 "myfunction" "not too large" "x < 3") ∧
    oneLine (requireXDiagnostic "myfile.c" 18 "myfunction" "not too large" "x == 3") ∧
    oneLine (ensureDiagnostic "myfile.c" 18 "myfunction" "not too large" "x < 3") ∧
    oneLine (ensureXDiagnostic "myfile.c" 18 "myfunction" "not too large" "x == 3") :=
  (checked_assertion_behavior "myfile.c" "myfunction" 18 "not too large" "x < 3"
    "x == 3").2.2 (by decide) (by decide) (by decide) (by decide) (by decide) (by decide)

/-- Claim C5: the quantifier helpers reduce a condition over an iteration
with all/any/count semantics — `forall` is true iff the condition holds at
every step of the iteration, `exists` iff it holds at some step, and
`countif` is the number of steps at which it holds. -/
theorem quantifier_reduction_semantics :
    ∀ (σ : Type) (hasMore : σ → Bool) (step : σ → σ) (cond : σ → Bool) (fuel : Nat) (s : σ),
      (forallLoop hasMore step cond fuel s = true ↔
        ∀ x ∈ iterStates hasMore step fuel s, cond x = true) ∧
      (existsLoop hasMore step cond fuel s = true ↔
        ∃ x ∈ iterStates hasMore step fuel s, cond x = true) ∧
      countifLoop hasMore step cond fuel s =
        ((iterStates hasMore step fuel s).filter cond).length := by
  intro σ hasMore step cond fuel s
  refine ⟨?_, ?_, countifLoop_eq_count hasMore step cond fuel s⟩
  · rw [forallLoop_eq_all, List.all_eq_true]
  · rw [existsLoop_eq_any, List.any_eq_true]

/-- Claim C8: an iteration whose continuation test is false initially
performs zero steps, so `forall` is vacuously true, `exists` is false and
`countif` is 0. -/
theorem quantifiers_empty_iteration :
    ∀ (σ : Type) (hasMore : σ → Bool) (step : σ → σ) (cond : σ → Bool) (s : σ),
      hasMore s = false →
      ∀ fuel : Nat,
        forallLoop hasMore step cond fuel s = true ∧
        existsLoop hasMore step cond fuel s = false ∧
        countifLoop hasMore step cond fuel s = 0 := by
  intro σ hasMore step cond s h fuel
  cases fuel with
  | zero => exact ⟨rfl, rfl, rfl⟩
  | succ n => simp [forallLoop, existsLoop, countifLoop, h]

/-- Witness for claim C8: an iteration over `Nat` whose continuation test is
constantly false, with fuel 7. -/
theorem quantifiers_empty_iteration_witness :
    forallLoop (fun (_ : Nat) => false) (fun i => i + 1) (fun i => i == 42) 7 0 = true ∧
    existsLoop (fun (_ : Nat) => false) (fun i => i + 1) (fun i => i == 42) 7 0 = false ∧
    countifLoop (fun (_ : Nat) => false) (fun i => i + 1) (fun i => i == 42) 7 0 = 0 :=
  quantifiers_empty_iteration Nat (fun _ => false) (fun i => i + 1) (fun i => i == 42) 0 rfl 7

/-! ### Container access -/

/-- Claim C2: for a container of length `L`, `get(container, index)` and
`set(container, index, value)` succeed exactly for `0 ≤ index < L`; for
`index < 0` or `index ≥ L` they produce a precondition failure that
terminates the process with `EXIT_FAILURE` instead of returning data. -/
theorem container_access_bounds :
    ∀ (α : Type) (c : Container α) (index : Int) (value : α),
      ((∃ v, cget c index = AccessResult.ok v) ↔ 0 ≤ index ∧ index < clength c) ∧
      ((∃ c2, cset c index value = AccessResult.ok c2) ↔ 0 ≤ index ∧ index < clength c) ∧
      (cget c index = AccessResult.preconditionFailure EXIT_FAILURE ↔
        (index < 0 ∨ clength c ≤ index)) ∧
      (cset c index value = AccessResult.preconditionFailure EXIT_FAILURE ↔
        (index < 0 ∨ clength c ≤ index)) := by
  intro α c index value
  by_cases h : 0 ≤ index ∧ index < clength c
  · refine ⟨?_, ?_, ?_, ?_⟩
    · simp [cget, h]
    · simp [cset, h]
    · simp only [cget, dif_pos h]
      constructor
      · intro hcontra; cases hcontra
      · intro hcontra; omega
    · simp only [cset, if_pos h]
      constructor
      · intro hcontra; cases hcontra
      · intro hcontra; omega
  · refine ⟨?_, ?_, ?_, ?_⟩
    · simp only [cget, dif_neg h]
      constructor
      · intro ⟨v, hv⟩; cases hv
      · intro hcontra; omega
    · simp only [cset, if_neg h]
      constructor
      · intro ⟨c2, hc2⟩; cases hc2
      · intro hcontra; omega
    · simp [cget, h]; omega
    · simp [cset, h]; omega

/-! ### The allocation ledger -/

theorem lookupBlock_removeBlock_self (p : Nat) (l : List (Nat × LiveBlockRecord)) :
    lookupBlock p (removeBlock p l) = none := by
  induction l with
  | nil => rfl
  | cons e rest ih =>
    by_cases h : e.1 = p
    · simp only [removeBlock, if_pos h]
      exact ih
    · simp only [removeBlock, if_neg h, lookupBlock, if_neg (fun hx => h hx)]
      exact ih

theorem lookupBlock_removeBlock_ne (a p : Nat) (hne : a ≠ p) (l : List (Nat × LiveBlockRecord)) :
    lookupBlock a (removeBlock p l) = lookupBlock a l := by
  induction l with
  | nil => rfl
  | cons e rest ih =>
    by_cases h : e.1 = p
    · have ha : ¬ e.1 = a := by rw [h]; exact fun hx => hne (Eq.symm hx)
      simp only [removeBlock, if_pos h, lookupBlock, if_neg ha]
      exact ih
    · by_cases ha : e.1 = a
      · simp only [removeBlock, if_neg h, lookupBlock, if_pos ha]
      · simp only [removeBlock, if_neg h, lookupBlock, if_neg ha]
        exact ih

/-- The combined allocator invariant: the ledger matches the
allocated/released history, and the history is hygienic. -/
def allocInv (s : AllocState) : Prop := ledgerMatchesHistory s ∧ allocHygiene s

theorem allocInv_initState : allocInv initState := by
  refine ⟨?_, ?_, ?_⟩
  · intro a
    simp [lookupBlock, initState]
  · intro a ha
    simp [initState] at ha
  · intro a ha
    simp [initState] at ha

theorem allocInv_allocate (s : AllocState) (file func : String) (line : Int) (size : Nat)
    (h : allocInv s) : allocInv (allocate s file func line size).2 := by
  obtain ⟨hledger, hbound, hrel⟩ := h
  have haddr_fresh : s.nextAddr + 1 ∉ s.allocated := by
    intro hmem
    have := hbound _ hmem
    omega
  refine ⟨?_, ?_, ?_⟩
  · intro a
    by_cases ha : a = s.nextAddr + 1
    · subst ha
      constructor
      · intro _
        exact ⟨List.mem_cons_self _ _, fun hmem => absurd (hrel _ hmem) haddr_fresh⟩
      · intro _
        simp [allocate, lookupBlock]
    · have hne : ¬ (s.nextAddr + 1 = a) := fun hx => ha hx.symm
      simp only [allocate, lookupBlock, if_neg hne]
      rw [hledger a]
      simp only [List.mem_cons]
      constructor
      · intro ⟨h1, h2⟩
        exact ⟨Or.inr h1, h2⟩
      · intro ⟨h1, h2⟩
        rcases h1 with h1 | h1
        · exact absurd h1 ha
        · exact ⟨h1, h2⟩
  · intro a ha
    simp only [allocate, List.mem_cons] at ha
    simp only [allocate]
    rcases ha with h1 | h1
    · omega
    · have := hbound _ h1
      omega
  · intro a ha
    simp only [allocate] at ha
    simp only [allocate, List.mem_cons]
    exact Or.inr (hrel _ ha)

theorem allocInv_release (s : AllocState) (p : Nat) (h : allocInv s) :
    allocInv (release s p) := by
  obtain ⟨hledger, hbound, hrel⟩ := h
  unfold release
  by_cases hp : p = NULL
  · simp only [hp, if_true]
    exact ⟨hledger, hbound, hrel⟩
  · simp only [hp, if_false]
    by_cases hsome : (lookupBlock p s.ledger).isSome = true
    · simp only [hsome, if_true]
      have hp_alloc : p ∈ s.allocated := ((hledger p).mp hsome).1
      refine ⟨?_, ?_, ?_⟩
      · intro a
        by_cases ha : a = p
        · subst ha
          simp [lookupBlock_removeBlock_self, List.mem_cons]
        · rw [show lookupBlock a (removeBlock p s.ledger) = lookupBlock a s.ledger
            from lookupBlock_removeBlock_ne a p ha s.ledger]
          rw [hledger a]
          simp only [List.mem_cons]
          constructor
          · intro ⟨h1, h2⟩
            refine ⟨h1, ?_⟩
            intro hmem
            rcases hmem with hx | hx
            · exact ha hx
            · exact h2 hx
          · intro ⟨h1, h2⟩
            exact ⟨h1, fun hx => h2 (Or.inr hx)⟩
      · exact hbound
      · intro a ha
        rcases List.mem_cons.mp ha with hx | hx
        · subst hx; exact hp_alloc
        · exact hrel _ hx
    · simp only [hsome, if_false]
      exact ⟨hledger, hbound, hrel⟩

theorem allocInv_runOps (ops : List AllocOp) (s : AllocState) (h : allocInv s) :
    allocInv (runOps ops s) := by
  induction ops generalizing s with
  | nil => exact h
  | cons op rest ih =>
    cases op with
    | alloc file func line size => exact ih _ (allocInv_allocate s file func line size h)
    | dealloc p => exact ih _ (allocInv_release s p h)

theorem lookupBlock_allocate_release_none (s : AllocState) (file func : String) (line : Int)
    (size : Nat) :
    lookupBlock (allocate s file func line size).1
      (release (allocate s file func line size).2
        (allocate s file func line size).1).ledger = none := by
  simp only [allocate, release]
  have hnn : ¬ (s.nextAddr + 1 = NULL) := by simp [NULL]
  simp only [hnn, if_false]
  have hsome : (lookupBlock (s.nextAddr + 1)
      ((s.nextAddr + 1, ⟨size, file, func, line⟩) :: s.ledger)).isSome = true := by
    simp [lookupBlock]
  simp only [hsome, if_true]
  exact lookupBlock_removeBlock_self _ _

/-- Claim C1: allocating and then releasing the returned pointer leaves the
Allocation Ledger without a record for that address, for every allocation
size; and after any sequence of client allocate/release actions from the
initial state, a ledger record exists for an address if and only if that
address was handed out by the tracked allocator and not yet released. -/
theorem allocation_ledger_roundtrip_and_invariant :
    ∀ (ops : List AllocOp) (s : AllocState) (file func : String) (line : Int) (size : Nat),
      ledgerMatchesHistory (runOps ops initState) ∧
      lookupBlock (allocate s file func line size).1
        (release (allocate s file func line size).2
          (allocate s file func line size).1).ledger = none := by
  intro ops s file func line size
  exact ⟨(allocInv_runOps ops initState allocInv_initState).1,
    lookupBlock_allocate_release_none s file func line size⟩

/-- Claim C7: `xmalloc(0)` (i.e. `base_malloc` with size 0) succeeds — the
returned handle is non-null, registered in the Allocation Ledger with its
call-site provenance, and releasing it afterwards deregisters it. -/
theorem xmalloc_zero_bytes :
    ∀ (s : AllocState) (file func : String) (line : Int),
      (allocate s file func line 0).1 ≠ NULL ∧
      lookupBlock (allocate s file func line 0).1 (allocate s file func line 0).2.ledger =
        some ⟨0, file, func, line⟩ ∧
      lookupBlock (allocate s file func line 0).1
        (release (allocate s file func line 0).2 (allocate s file func line 0).1).ledger =
          none := by
  intro s file func line
  refine ⟨by simp [allocate, NULL], ?_, ?_⟩
  · simp [allocate, lookupBlock]
  · exact lookupBlock_allocate_release_none s file func line 0

/-! ### Preprocessor substitution -/

theorem expandToken_ne_free (t : String) : expandToken t ≠ "free" := by
  by_cases h1 : t = "free"
  · subst h1
    simp [expandToken, cppDefines, List.lookup]
  · by_cases h2 : t = "exit"
    · subst h2
      simp [expandToken, cppDefines, List.lookup]
    · have hb1 : (t == "free") = false := by
        simp [h1]
      have hb2 : (t == "exit") = false := by
        simp [h2]
      have hl : cppDefines.lookup t = none := by
        simp [cppDefines, List.lookup, hb1, hb2]
      simp [expandToken, hl]
      exact h1

theorem expandToken_ne_exit (t : String) : expandToken t ≠ "exit" := by
  by_cases h1 : t = "free"
  · subst h1
    simp [expandToken, cppDefines, List.lookup]
  · by_cases h2 : t = "exit"
    · subst h2
      simp [expandToken, cppDefines, List.lookup]
    · have hb1 : (t == "free") = false := by
        simp [h1]
      have hb2 : (t == "exit") = false := by
        simp [h2]
      have hl : cppDefines.lookup t = none := by
        simp [cppDefines, List.lookup, hb1, hb2]
      simp [expandToken, hl]
      exact h2

/-- Claim C9: after including `base.h`, the identifier token `free` always
expands to `base_free` and `exit` to `base_exit`, so no token sequence of
client code retains a direct `free` or `exit` call after preprocessing —
every release of memory goes through `base_free` and every termination
through `base_exit`. -/
theorem free_exit_redefined :
    ∀ ts : List String,
      expandToken "free" = "base_free" ∧
      expandToken "exit" = "base_exit" ∧
      "free" ∉ expandTokens ts ∧
      "exit" ∉ expandTokens ts := by
  intro ts
  refine ⟨rfl, rfl, ?_, ?_⟩
  · intro hmem
    rcases List.mem_map.mp hmem with ⟨t, _, ht⟩
    exact expandToken_ne_free t ht
  · intro hmem
    rcases List.mem_map.mp hmem with ⟨t, _, ht⟩
    exact expandToken_ne_exit t ht

/-- Claim C10: the `exit(EXIT_FAILURE)` token sequence in the bodies of
`assert`/`require`/`ensure` expands at the client\x27s use site to
`base_exit(EXIT_FAILURE)` (never the raw platform `exit`), so a failed check
terminates through the process-exit hook with the failure status
`EXIT_FAILURE`; the hook records that status and, with memory checking
enabled, still reports the ledger\x27s leak diagnostics at exit time. -/
theorem assert_failure_exits_through_hook :
    ∀ (file func : String) (line : Int) (description conditionText : String) (s : AllocState),
      expandTokens assertExitCall = ["base_exit", "(", "EXIT_FAILURE", ")"] ∧
      "exit" ∉ expandTokens assertExitCall ∧
      assertCheck file line description conditionText false =
        CheckResult.terminated (assertDiagnostic file line description conditionText)
          EXIT_FAILURE ∧
      requireCheck file line func description conditionText false =
        CheckResult.terminated (requireDiagnostic file line func description conditionText)
          EXIT_FAILURE ∧
      ensureCheck file line func description conditionText false =
        CheckResult.terminated (ensureDiagnostic file line func description conditionText)
          EXIT_FAILURE ∧
      EXIT_FAILURE ≠ 0 ∧
      (baseExit true s EXIT_FAILURE).status = EXIT_FAILURE ∧
      (baseExit true s EXIT_FAILURE).leaks = s.ledger := by
  intro file func line description conditionText s
  refine ⟨rfl, ?_, rfl, rfl, rfl, by decide, rfl, rfl⟩
  intro hmem
  rcases List.mem_map.mp hmem with ⟨t, _, ht⟩
  exact expandToken_ne_exit t ht

end Prog1Lib
